import Mathlib

/-!
Shallow embedding of the PhyloRank repository (files decorate.py and
outliers.py).  Pure fragments of the Python code are translated into
executable Lean definitions; relative-divergence values, thresholds and
branch lengths are modelled as rationals, and fallible code paths return
Option or Except values.
-/

namespace PhyloRank

/-- Rank label strings used by Decorate (decorate.py line 35). -/
def rank_prefixes : List String :=
  ["D__", "P__", "C__", "O__", "F__", "G__", "S__", "ST__"]

/-- Rank designators used as threshold-table keys (decorate.py line 36). -/
def rank_designators : List String :=
  ["d", "p", "c", "o", "f", "g", "s", "st"]

/-- Sentinel for nodes too basal for a confident prediction (decorate.py line 37). -/
def highly_basal_designator : String := "X__"

/-- A threshold table holding the six required keys d through g
(decorate.py, parameter thresholds of Decorate.run). -/
structure Thresholds where
  d : ℚ
  p : ℚ
  c : ℚ
  o : ℚ
  f : ℚ
  g : ℚ
deriving DecidableEq

/-- Value of thresholds[rank_designators[i]] for the six-key table, i = 0..5. -/
def thrAt (t : Thresholds) : Nat → ℚ
  | 0 => t.d
  | 1 => t.p
  | 2 => t.c
  | 3 => t.o
  | 4 => t.f
  | _ => t.g

/-- Thresholds strictly increasing in rank order. -/
def Mono (t : Thresholds) : Prop :=
  t.d < t.p ∧ t.p < t.c ∧ t.c < t.o ∧ t.o < t.f ∧ t.f < t.g

/-- The interval-search loop of Decorate.run (decorate.py lines 101-106):
starting at index i, return the rank prefix of the first index whose
half-open threshold interval contains rd; with the six-key table the loop
bound len(thresholds) - 1 is 5. -/
def findIntervalFrom (t : Thresholds) (rd : ℚ) (i : Nat) : Option String :=
  if h : i < 5 then
    if thrAt t i < rd ∧ rd ≤ thrAt t (i + 1) then some (rank_prefixes.getD (i + 1) "")
    else findIntervalFrom t rd (i + 1)
  else none
termination_by 5 - i
decreasing_by omega

/-- Predicted rank of a node with relative divergence rd
(decorate.py lines 95-106).  none models the Python value None that the
loop leaves behind when no interval matches. -/
def predicted_rank (t : Thresholds) (rd : ℚ) : Option String :=
  if rd > t.g then some "S__"
  else if rd ≤ t.d then some highly_basal_designator
  else findIntervalFrom t rd 0

/-- A tree node as seen by the decoration loop: tip flag, branch length, raw
label, and the support and taxon-name fields parsed from the label. -/
structure PNode where
  isTip : Bool
  length : ℚ
  name : Option String
  support : Option ℚ
  taxonName : Option String
deriving DecidableEq

/-- Support-based skip test of Decorate.run (decorate.py line 83): the python
test is `support and float(support) < min_support`, so an absent or zero
(falsy) support value never triggers the skip. -/
def skipBySupport (support : Option ℚ) (minSupport : ℚ) : Bool :=
  match support with
  | none => false
  | some s => if s = 0 then false else decide (s < minSupport)

/-- Eligibility chain of Decorate.run (decorate.py lines 74-87): a node is
decorated unless it is a tip, its branch is shorter than minLength, the
support skip fires, or onlyNamed is set and the node has no (truthy) taxon
name. -/
def nodeEligible (n : PNode) (minSupport : ℚ) (onlyNamed : Bool) (minLength : ℚ) : Bool :=
  if n.isTip then false
  else if n.length < minLength then false
  else if skipBySupport n.support minSupport then false
  else if onlyNamed ∧ (n.taxonName = none ∨ n.taxonName = some "") then false
  else true

/-- Increment a counter keyed by strings (collections.defaultdict(int) update). -/
def tallyUpdate (f : String → Nat) (k : String) : String → Nat :=
  fun x => if x = k then f x + 1 else f x

/-- Accuracy-tally step of Decorate.run (decorate.py lines 109-115) for one
node: whenever the prediction is not the basal sentinel, the code calls
`taxon_name.split(';')` unconditionally; a node whose label parsed to no
taxon name (Python None) makes that call raise AttributeError, which is
modelled by Except.error. -/
def tallyStep (taxonName : Option String) (predictedRank : String)
    (correct incorrect : String → Nat) : Except String ((String → Nat) × (String → Nat)) :=
  if predictedRank = highly_basal_designator then Except.ok (correct, incorrect)
  else
    match taxonName with
    | none => Except.error "AttributeError: NoneType object has no attribute split"
    | some tn =>
      let namedRank := ((tn.splitOn ";").getLastD "").take 3
      if namedRank = predictedRank.toLower then Except.ok (tallyUpdate correct namedRank, incorrect)
      else Except.ok (correct, tallyUpdate incorrect namedRank)

/-- Per-rank accuracy summary of Decorate.run (decorate.py lines 117-121) over
rank_prefixes[1:7]: for each prefix the correct count, the total and the
percentage; a zero total makes `correct_taxa * 100.0 / total_taxa` raise
ZeroDivisionError, which is modelled by none in the last component. -/
def accuracySummary (correct incorrect : String → Nat) :
    List (String × Nat × Nat × Option ℚ) :=
  ((rank_prefixes.drop 1).take 6).map (fun rp =>
    let c := correct rp.toLower
    let ic := incorrect rp.toLower
    let total := c + ic
    (rp, c, total, if total = 0 then none else some ((c : ℚ) * 100 / (total : ℚ))))

/-- Insert a value into an already sorted list. -/
def insertSorted {α : Type} [LinearOrder α] (x : α) : List α → List α
  | [] => [x]
  | y :: ys => if x ≤ y then x :: y :: ys else y :: insertSorted x ys

/-- Insertion sort, modelling numpy sorting and python sorted(). -/
def sortList {α : Type} [LinearOrder α] (l : List α) : List α :=
  l.foldr insertSorted []

/-- numpy median: middle of the sorted values, or the mean of the two middle
values when the length is even.  Meaningful for nonempty input only; the NaN
numpy produces on an empty list is modelled as none by medianRelDistQ at the
call site where that distinction matters. -/
def npMedian (l : List ℚ) : ℚ :=
  let s := sortList l
  if s.length % 2 = 1 then s.getD (s.length / 2) 0
  else (s.getD (s.length / 2 - 1) 0 + s.getD (s.length / 2) 0) / 2

/-- numpy mean. -/
def npMean (l : List ℚ) : ℚ := l.sum / (l.length : ℚ)

/-- Relative-distance table of one rooting: rank index to the (taxon,
divergence) pairs of that rank, modelling the python dict of dicts. -/
abbrev RelTable := List (Nat × List (String × ℚ))

/-- Fixed delta-classification chain shared by both outlier reports
(outliers.py lines 202-210 and 378-386). -/
def classifyDelta (delta : ℚ) : String :=
  if delta < -(2/10) then "very overclassified"
  else if delta < -(1/10) then "overclassified"
  else if delta > 2/10 then "very underclassified"
  else if delta > 1/10 then "underclassified"
  else "OK"

/-- The (taxon, divergence) pairs stored at a rank of a table. -/
def entriesAt (tbl : RelTable) (rank : Nat) : List (String × ℚ) :=
  tbl.flatMap (fun rd => if rd.1 = rank then rd.2 else [])

/-- Median relative distance of a rank over the taxa restricted to the
inference set (outliers.py lines 184-187). -/
def medianRelDist (tbl : RelTable) (inference : List String) (rank : Nat) : ℚ :=
  npMedian (((entriesAt tbl rank).filter (fun td => decide (td.1 ∈ inference))).map Prod.snd)

/-- Closest-rank search of _median_outlier_file (outliers.py lines 195-200):
strict improvement over an initial bound of 1e10, first rank wins ties; the
none component models the python name staying unbound. -/
def closestRankTo (tbl : RelTable) (inference : List String) (dist : ℚ) : Option Nat :=
  ((tbl.map Prod.fst).dedup.foldl (fun acc r =>
      let ad := |dist - medianRelDist tbl inference r|
      if ad < acc.1 then (ad, some r) else acc) ((10 : ℚ) ^ 10, none)).2

/-- Rank keys of a table in sorted order (python sorted(rel_dists.keys())). -/
def ranksInTable (tbl : RelTable) : List Nat :=
  sortList (tbl.map Prod.fst).dedup

/-- One row of the per-rooting median-outlier table
(outliers.py lines 189-218). -/
structure OutlierRow where
  rank : Nat
  taxon : String
  dist : ℚ
  rankMedian : ℚ
  delta : ℚ
  closestRank : Option Nat
  classification : String
deriving DecidableEq

/-- Rows of the per-rooting median-outlier table _median_outlier_file
(outliers.py lines 189-218) on the successful path, where every rank median
is defined: every taxon of every rank is written, while the rank median is
computed from the inference subset only.  The NaN-median and NameError
behaviour of the writer is modelled separately by medianOutlierReport. -/
def medianOutlierRows (tbl : RelTable) (inference : List String) : List OutlierRow :=
  (ranksInTable tbl).flatMap (fun rank =>
    (entriesAt tbl rank).map (fun td =>
      let m := medianRelDist tbl inference rank
      let delta := td.2 - m
      { rank := rank
        taxon := td.1
        dist := td.2
        rankMedian := m
        delta := delta
        closestRank := closestRankTo tbl inference td.2
        classification := classifyDelta delta }))

/-- The divergences recorded for a taxon at a rank inside one rooting's table
(inner loops of outliers.py lines 339-347). -/
def phDists (rank : Nat) (taxon : String) (tbl : RelTable) : List ℚ :=
  tbl.flatMap (fun rd =>
    if rd.1 = rank then (rd.2.filter (fun td => td.1 = taxon)).map Prod.snd else [])

/-- medians_for_taxa[rank][taxon] of _median_summary_outlier_file
(outliers.py lines 337-346): the per-rooting divergence list of a taxon. -/
def collectedDists (prd : List (String × RelTable)) (rank : Nat) (taxon : String) : List ℚ :=
  prd.flatMap (fun ph => phDists rank taxon ph.2)

/-- Taxon median across rootings (outliers.py line 367). -/
def taxonMedian (prd : List (String × RelTable)) (rank : Nat) (taxon : String) : ℚ :=
  npMedian (collectedDists prd rank taxon)

/-- Taxon median absolute deviation across rootings (outliers.py line 368). -/
def taxonMad (prd : List (String × RelTable)) (rank : Nat) (taxon : String) : ℚ :=
  npMedian ((collectedDists prd rank taxon).map
    (fun x => |x - taxonMedian prd rank taxon|))

/-- median_for_phyla[rank] (outliers.py lines 339-343): one trusted-taxa
median per rooting holding the rank. -/
def rankMediansAcrossPhyla (prd : List (String × RelTable)) (inference : List String)
    (rank : Nat) : List ℚ :=
  prd.flatMap (fun ph => ph.2.filterMap (fun rd =>
    if rd.1 = rank then
      some (npMedian ((rd.2.filter (fun td => decide (td.1 ∈ inference))).map Prod.snd))
    else none))

/-- median[rank] of the consensus report (outliers.py lines 349-353). -/
def aggMedian (prd : List (String × RelTable)) (inference : List String) (rank : Nat) : ℚ :=
  npMedian (rankMediansAcrossPhyla prd inference rank)

/-- mad[rank] of the consensus report (outliers.py lines 349-354). -/
def aggMad (prd : List (String × RelTable)) (inference : List String) (rank : Nat) : ℚ :=
  npMedian ((rankMediansAcrossPhyla prd inference rank).map
    (fun m => |m - aggMedian prd inference rank|))

/-- dist_per_phyla[rank][taxon] (outliers.py lines 338-347): per rooting, the
taxon divergence minus that rooting's trusted-taxa median. -/
def distToPhylumMedian (prd : List (String × RelTable)) (inference : List String)
    (rank : Nat) (taxon : String) : List ℚ :=
  prd.flatMap (fun ph => ph.2.flatMap (fun rd =>
    if rd.1 = rank then
      (rd.2.filter (fun td => td.1 = taxon)).map
        (fun td => td.2 - npMedian ((rd.2.filter
          (fun td2 => decide (td2.1 ∈ inference))).map Prod.snd))
    else []))

/-- Sorted rank keys of the consensus report (sorted(median.keys())). -/
def ranksInSummary (prd : List (String × RelTable)) : List Nat :=
  sortList ((prd.flatMap (fun ph => ph.2.map Prod.fst)).dedup)

/-- Keys of medians_for_taxa[rank] in first-appearance order. -/
def taxaAtRank (prd : List (String × RelTable)) (rank : Nat) : List String :=
  (prd.flatMap (fun ph => ph.2.flatMap (fun rd =>
    if rd.1 = rank then rd.2.map Prod.fst else []))).dedup

/-- Closest-rank search of _median_summary_outlier_file
(outliers.py lines 371-376). -/
def closestRankSummary (prd : List (String × RelTable)) (inference : List String)
    (tm : ℚ) : Option Nat :=
  (((prd.flatMap (fun ph => ph.2.map Prod.fst)).dedup).foldl (fun acc r =>
      let ad := |tm - aggMedian prd inference r|
      if ad < acc.1 then (ad, some r) else acc) ((10 : ℚ) ^ 10, none)).2

/-- One row of the consensus outlier table (outliers.py lines 360-404). -/
structure SummaryRow where
  rank : Nat
  taxon : String
  taxonMedianVal : ℚ
  taxonMadVal : ℚ
  rankMedian : ℚ
  rankMad : ℚ
  delta : ℚ
  closestRank : Option Nat
  classification : String
  meanAbsDist : ℚ
  meanDist : ℚ
  distList : List ℚ
deriving DecidableEq

/-- Rows of the consensus table _median_summary_outlier_file
(outliers.py lines 356-405); distList is the written diff_str column of
lines 388-391, the per-rooting distances to each rooting's phylum median. -/
def medianSummaryRows (prd : List (String × RelTable)) (inference : List String) :
    List SummaryRow :=
  (ranksInSummary prd).flatMap (fun rank =>
    (taxaAtRank prd rank).map (fun taxon =>
      let tm := taxonMedian prd rank taxon
      let delta := tm - aggMedian prd inference rank
      { rank := rank
        taxon := taxon
        taxonMedianVal := tm
        taxonMadVal := taxonMad prd rank taxon
        rankMedian := aggMedian prd inference rank
        rankMad := aggMad prd inference rank
        delta := delta
        closestRank := closestRankSummary prd inference tm
        classification := classifyDelta delta
        meanAbsDist := npMean ((distToPhylumMedian prd inference rank taxon).map (fun x => |x|))
        meanDist := npMean (distToPhylumMedian prd inference rank taxon)
        distList := distToPhylumMedian prd inference rank taxon }))

/-- Phylum discovery of Outliers.run (outliers.py lines 464-473): preorder
traversal of the labeled internal nodes, collecting the last lineage segment
of each truthy taxon name when it starts with the phylum designator. -/
def discoverPhyla (ns : List PNode) : List String :=
  ns.foldl (fun acc n =>
    if n.name = none ∨ n.name = some "" ∨ n.isTip then acc
    else
      match n.taxonName with
      | none => acc
      | some tn =>
        if tn = "" then acc
        else
          let t := (((tn.splitOn ";").map String.trim).getLastD "")
          if t.startsWith "p__" then acc ++ [t] else acc) []

/-- Rooting loop bound of Outliers.run (outliers.py line 479): the loop
iterates `for p in phyla[0:2]`. -/
def processedPhyla (ns : List PNode) : List String :=
  (discoverPhyla ns).take 2

/-- Row of the faithful per-rooting report writer: rankMedian and delta are
none when the rank's restricted reference set is empty and numpy produced a
NaN median (outliers.py line 187). -/
structure OutlierRowN where
  rank : Nat
  taxon : String
  dist : ℚ
  rankMedian : Option ℚ
  delta : Option ℚ
  closestRank : Nat
  classification : String
deriving DecidableEq

/-- Rank median with the numpy empty-input behaviour made explicit:
np_median of an empty restricted list is NaN, modelled as none
(outliers.py lines 184-187). -/
def medianRelDistQ (tbl : RelTable) (inference : List String) (rank : Nat) : Option ℚ :=
  let v := ((entriesAt tbl rank).filter (fun td => decide (td.1 ∈ inference))).map Prod.snd
  if v.isEmpty then none else some (npMedian v)

/-- Delta classification with a possibly NaN delta: every comparison against
NaN is false, so the chain of outliers.py lines 202-210 keeps the initial
OK. -/
def classifyDeltaN : Option ℚ → String
  | none => "OK"
  | some d => classifyDelta d

/-- Closest-rank search of one row (outliers.py lines 195-200) with python
name semantics kept: the distance bound restarts at 1e10 for each row, a NaN
median never wins a comparison, and carried is the closest_rank binding left
behind by earlier rows of the same report. -/
def closestSearch (tbl : RelTable) (inference : List String) (dist : ℚ)
    (carried : Option Nat) : Option Nat :=
  ((tbl.map Prod.fst).dedup.foldl (fun acc r =>
      match medianRelDistQ tbl inference r with
      | none => acc
      | some m => if |dist - m| < acc.1 then (|dist - m|, some r) else acc)
    ((10 : ℚ) ^ 10, carried)).2

/-- The (rank, taxon, dist) triples visited by the writer loop of
_median_outlier_file: ranks in sorted order, taxa in table order. -/
def rowStream (tbl : RelTable) : List (Nat × String × ℚ) :=
  (ranksInTable tbl).flatMap (fun rank =>
    (entriesAt tbl rank).map (fun td => (rank, td.1, td.2)))

/-- Writer loop of _median_outlier_file (outliers.py lines 191-217): rows
are emitted in order while the closest_rank binding is threaded across
rows; a row whose search leaves the name unbound raises NameError at the
write call, aborting the report so no further rows are written. -/
def reportLoop (tbl : RelTable) (inference : List String) :
    List (Nat × String × ℚ) → List OutlierRowN → Option Nat →
    Except String (List OutlierRowN)
  | [], rows, _ => Except.ok rows
  | rtd :: rest, rows, carried =>
    match closestSearch tbl inference rtd.2.2 carried with
    | none => Except.error "NameError: name closest_rank is not defined"
    | some c =>
      let m := medianRelDistQ tbl inference rtd.1
      let delta := m.map (fun mm => rtd.2.2 - mm)
      reportLoop tbl inference rest
        (rows ++ [{ rank := rtd.1, taxon := rtd.2.1, dist := rtd.2.2,
                    rankMedian := m, delta := delta, closestRank := c,
                    classification := classifyDeltaN delta }]) (some c)

/-- The per-rooting median-outlier report exactly as written by
_median_outlier_file: ok with the full row list, or the NameError raised on
the all-NaN-median path before any row is written. -/
def medianOutlierReport (tbl : RelTable) (inference : List String) :
    Except String (List OutlierRowN) :=
  reportLoop tbl inference (rowStream tbl) [] none

/-- Threshold table of the worked example in the specification. -/
def tEx : Thresholds := ⟨1/10, 3/10, 1/2, 6/10, 7/10, 85/100⟩

lemma thrAt_0 (t : Thresholds) : thrAt t 0 = t.d := rfl

lemma thrAt_1 (t : Thresholds) : thrAt t 1 = t.p := rfl

lemma thrAt_2 (t : Thresholds) : thrAt t 2 = t.c := rfl

lemma thrAt_3 (t : Thresholds) : thrAt t 3 = t.o := rfl

lemma thrAt_4 (t : Thresholds) : thrAt t 4 = t.f := rfl

lemma thrAt_5 (t : Thresholds) : thrAt t 5 = t.g := rfl

lemma thrAt_lt (t : Thresholds) (hm : Mono t) {i j : Nat} (hij : i < j) (hj : j ≤ 5) :
    thrAt t i < thrAt t j := by
  obtain ⟨m1, m2, m3, m4, m5⟩ := hm
  interval_cases j <;> interval_cases i <;>
    simp only [thrAt_0, thrAt_1, thrAt_2, thrAt_3, thrAt_4, thrAt_5] <;> linarith

lemma findIntervalFrom_eq (t : Thresholds) (rd : ℚ) (hm : Mono t) (i : Nat) (hi : i < 5)
    (h1 : thrAt t i < rd) (h2 : rd ≤ thrAt t (i + 1)) :
    ∀ k j, i = j + k → findIntervalFrom t rd j = some (rank_prefixes.getD (i + 1) "") := by
  intro k
  induction k with
  | zero =>
    intro j hj
    have hji : j = i := by omega
    subst hji
    rw [findIntervalFrom, dif_pos hi, if_pos ⟨h1, h2⟩]
  | succ k ih =>
    intro j hj
    have hjlt : j < i := by omega
    have hj5 : j < 5 := by omega
    have hle : thrAt t (j + 1) ≤ thrAt t i := by
      rcases Nat.lt_or_ge (j + 1) i with hlt | hge
      · exact le_of_lt (thrAt_lt t hm hlt (by omega))
      · have : j + 1 = i := by omega
        rw [this]
    rw [findIntervalFrom, dif_pos hj5, if_neg ?_]
    · exact ih (j + 1) (by omega)
    · rintro ⟨hA, hB⟩
      linarith

lemma predicted_rank_eq_interval (t : Thresholds) (hm : Mono t) (rd : ℚ) (i : Nat)
    (hi : i < 5) (h1 : thrAt t i < rd) (h2 : rd ≤ thrAt t (i + 1)) :
    predicted_rank t rd = some (rank_prefixes.getD (i + 1) "") := by
  have h0i : thrAt t 0 ≤ thrAt t i := by
    rcases Nat.eq_zero_or_pos i with h | h
    · rw [h]
    · exact le_of_lt (thrAt_lt t hm h (by omega))
  have hi5 : thrAt t (i + 1) ≤ thrAt t 5 := by
    rcases Nat.lt_or_ge (i + 1) 5 with hlt | hge
    · exact le_of_lt (thrAt_lt t hm hlt (by omega))
    · have : i + 1 = 5 := by omega
      rw [this]
  have hdlt : t.d < rd := lt_of_le_of_lt (by rw [← thrAt_0 t]; exact h0i) h1
  have hgge : rd ≤ t.g := le_trans h2 (by rw [← thrAt_5 t]; exact hi5)
  unfold predicted_rank
  rw [if_neg (not_lt.mpr hgge), if_neg (not_le.mpr hdlt)]
  exact findIntervalFrom_eq t rd hm i hi h1 h2 i 0 (by omega)

lemma predicted_rank_total (t : Thresholds) (hm : Mono t) (rd : ℚ) :
    ∃ s, predicted_rank t rd = some s ∧
      (s = highly_basal_designator ∨ s ∈ rank_prefixes) := by
  by_cases hg : rd > t.g
  · refine ⟨"S__", ?_, Or.inr (by simp [rank_prefixes])⟩
    unfold predicted_rank
    rw [if_pos hg]
  · by_cases hd : rd ≤ t.d
    · refine ⟨highly_basal_designator, ?_, Or.inl rfl⟩
      unfold predicted_rank
      rw [if_neg hg, if_pos hd]
    · push_neg at hg hd
      rcases le_or_lt rd t.p with h | hp
      · exact ⟨"P__", predicted_rank_eq_interval t hm rd 0 (by norm_num) hd h,
          Or.inr (by simp [rank_prefixes])⟩
      · rcases le_or_lt rd t.c with h | hc
        · exact ⟨"C__", predicted_rank_eq_interval t hm rd 1 (by norm_num) hp h,
            Or.inr (by simp [rank_prefixes])⟩
        · rcases le_or_lt rd t.o with h | ho
          · exact ⟨"O__", predicted_rank_eq_interval t hm rd 2 (by norm_num) hc h,
              Or.inr (by simp [rank_prefixes])⟩
          · rcases le_or_lt rd t.f with h | hf
            · exact ⟨"F__", predicted_rank_eq_interval t hm rd 3 (by norm_num) ho h,
                Or.inr (by simp [rank_prefixes])⟩
            · exact ⟨"G__", predicted_rank_eq_interval t hm rd 4 (by norm_num) hf hg,
                Or.inr (by simp [rank_prefixes])⟩

/-- C1: for a strictly increasing six-key threshold table, a divergence above
the genus threshold is predicted S__, a divergence at or below the domain
threshold is predicted with the basal sentinel X__, and otherwise the
prediction is the child prefix of the unique consecutive threshold pair whose
half-open interval (parent, child] contains the divergence. -/
theorem claim_C1_threshold_classification (t : Thresholds) (hm : Mono t) (rd : ℚ) :
    (rd > t.g → predicted_rank t rd = some "S__") ∧
    (rd ≤ t.d → predicted_rank t rd = some highly_basal_designator) ∧
    (∀ i, i < 5 → thrAt t i < rd → rd ≤ thrAt t (i + 1) →
      predicted_rank t rd = some (rank_prefixes.getD (i + 1) "")) := by
  refine ⟨?_, ?_, ?_⟩
  · intro h
    unfold predicted_rank
    rw [if_pos h]
  · intro h
    have hg : ¬ rd > t.g := by
      obtain ⟨m1, m2, m3, m4, m5⟩ := hm
      push_neg
      linarith
    unfold predicted_rank
    rw [if_neg hg, if_pos h]
  · intro i hi h1 h2
    exact predicted_rank_eq_interval t hm rd i hi h1 h2

/-- Witness for C1 at the specification example: thresholds d 0.1, p 0.3,
c 0.5, o 0.6, f 0.7, g 0.85 with divergence 0.4 give prediction C__. -/
theorem claim_C1_witness :
    Mono tEx ∧ predicted_rank tEx (2/5) = some "C__" := by
  have hm : Mono tEx := by refine ⟨?_, ?_, ?_, ?_, ?_⟩ <;> norm_num [tEx]
  refine ⟨hm, ?_⟩
  have h := (claim_C1_threshold_classification tEx hm (2/5)).2.2 1 (by norm_num)
    (by rw [thrAt_1]; norm_num [tEx]) (by rw [thrAt_2]; norm_num [tEx])
  exact h

/-- C4: for a strictly increasing threshold table every relative divergence
is assigned exactly one label, either a rank prefix or the basal sentinel,
so the prediction is never left unset. -/
theorem claim_C4_totality_uniqueness (t : Thresholds) (hm : Mono t) (rd : ℚ) :
    (∃ s, predicted_rank t rd = some s ∧
      (s = highly_basal_designator ∨ s ∈ rank_prefixes)) ∧
    (∀ s1 s2, predicted_rank t rd = some s1 → predicted_rank t rd = some s2 → s1 = s2) := by
  refine ⟨predicted_rank_total t hm rd, ?_⟩
  intro s1 s2 h1 h2
  rw [h1] at h2
  exact Option.some.inj h2

/-- Witness for C4 at the specification example thresholds and divergence 0.9. -/
theorem claim_C4_witness :
    (∃ s, predicted_rank tEx (9/10) = some s ∧
      (s = highly_basal_designator ∨ s ∈ rank_prefixes)) ∧
    (∀ s1 s2, predicted_rank tEx (9/10) = some s1 →
      predicted_rank tEx (9/10) = some s2 → s1 = s2) :=
  claim_C4_totality_uniqueness tEx
    (by refine ⟨?_, ?_, ?_, ?_, ?_⟩ <;> norm_num [tEx]) (9/10)

/-- Spec-side reading of the fixed delta cutoffs: the five regions of the
classification chain and the label each must receive. -/
def deltaClassSpec (d : ℚ) (c : String) : Prop :=
  (d < -(2/10) → c = "very overclassified") ∧
  (-(2/10) ≤ d → d < -(1/10) → c = "overclassified") ∧
  (d > 2/10 → c = "very underclassified") ∧
  (1/10 < d → d ≤ 2/10 → c = "underclassified") ∧
  (-(1/10) ≤ d → d ≤ 1/10 → c = "OK")

lemma classifyDelta_spec (d : ℚ) : deltaClassSpec d (classifyDelta d) := by
  unfold deltaClassSpec classifyDelta
  refine ⟨?_, ?_, ?_, ?_, ?_⟩ <;> intros <;> split_ifs <;>
    first | rfl | (exfalso; linarith)

lemma npMedian_singleton (a : ℚ) : npMedian [a] = a := by
  simp [npMedian, sortList, insertSorted, List.getD]

lemma npMean_singleton (a : ℚ) : npMean [a] = a := by
  simp [npMean]

lemma mem_insertSorted {α : Type} [LinearOrder α] (x y : α) (l : List α) :
    x ∈ insertSorted y l ↔ x = y ∨ x ∈ l := by
  induction l with
  | nil => simp [insertSorted]
  | cons z zs ih =>
    by_cases h : y ≤ z
    · simp [insertSorted, h]
    · simp [insertSorted, h, ih]
      tauto

lemma mem_sortList {α : Type} [LinearOrder α] (x : α) (l : List α) :
    x ∈ sortList l ↔ x ∈ l := by
  induction l with
  | nil => simp [sortList]
  | cons a l ih =>
    have hs : sortList (a :: l) = insertSorted a (sortList l) := rfl
    rw [hs, mem_insertSorted, ih]
    simp

lemma flatMap_singleton_of_filter {α : Type} (f : α → List ℚ) (l : List α) (v : ℚ)
    (h : (l.filter (fun a => !(f a).isEmpty)).map f = [[v]]) : l.flatMap f = [v] := by
  induction l with
  | nil => simp at h
  | cons a l ih =>
    by_cases ha : (f a).isEmpty = true
    · have hfa : f a = [] := List.isEmpty_iff.mp ha
      rw [List.flatMap_cons, hfa, List.nil_append]
      apply ih
      simpa [List.filter_cons, ha] using h
    · rw [List.filter_cons] at h
      simp only [ha, Bool.not_false, if_true] at h
      rw [List.map_cons] at h
      have h1 : f a = [v] := (List.cons_eq_cons.mp h).1
      have h2 : (l.filter (fun a => !(f a).isEmpty)).map f = [] := (List.cons_eq_cons.mp h).2
      have h3 : ∀ x ∈ l, f x = [] := by
        intro x hx
        have := List.filter_eq_nil_iff.mp (List.map_eq_nil_iff.mp h2) x hx
        simpa using this
      rw [List.flatMap_cons, h1, List.flatMap_eq_nil_iff.mpr h3, List.append_nil]

lemma reportLoop_proj (tbl : RelTable) (inference : List String) :
    ∀ (l : List (Nat × String × ℚ)) (rows0 : List OutlierRowN) (carried : Option Nat)
      (rowsF : List OutlierRowN),
      reportLoop tbl inference l rows0 carried = Except.ok rowsF →
      rowsF.map (fun r => (r.rank, r.taxon, r.dist)) =
        rows0.map (fun r => (r.rank, r.taxon, r.dist)) ++ l := by
  intro l
  induction l with
  | nil =>
    intro rows0 carried rowsF h
    rw [reportLoop] at h
    injection h with h2
    subst h2
    simp
  | cons rtd rest ih =>
    intro rows0 carried rowsF h
    rw [reportLoop] at h
    cases hc : closestSearch tbl inference rtd.2.2 carried with
    | none =>
      rw [hc] at h
      exact absurd h (by simp)
    | some c =>
      rw [hc] at h
      have h2 := ih _ (some c) rowsF h
      rw [h2, List.map_append]
      simp

lemma mem_rowStream (tbl : RelTable) (rt : Nat × List (String × ℚ)) (hrt : rt ∈ tbl)
    (td : String × ℚ) (htd : td ∈ rt.2) : (rt.1, td.1, td.2) ∈ rowStream tbl := by
  have hrank : rt.1 ∈ ranksInTable tbl := by
    rw [ranksInTable, mem_sortList]
    exact List.mem_dedup.mpr (List.mem_map.mpr ⟨rt, hrt, rfl⟩)
  have htdE : td ∈ entriesAt tbl rt.1 := by
    rw [entriesAt]
    refine List.mem_flatMap.mpr ⟨rt, hrt, ?_⟩
    simp [htd]
  rw [rowStream]
  exact List.mem_flatMap.mpr ⟨rt.1, hrank, List.mem_map.mpr ⟨td, htdE, rfl⟩⟩

/-- Table with one rank and two taxa; only taxon A is trusted, so the rank
median is 0.7 and taxon B sits at delta exactly -0.2. -/
def tblEx3 : RelTable := [(0, [("A", 7/10), ("B", 1/2)])]

/-- Row written for taxon A of tblEx3. -/
def rowA3 : OutlierRow := ⟨0, "A", 7/10, 7/10, 0, some 0, "OK"⟩

/-- Row written for taxon B of tblEx3: delta exactly -0.2. -/
def rowB3 : OutlierRow := ⟨0, "B", 1/2, 7/10, -(1/5), some 0, "overclassified"⟩

lemma medianOutlierRows_tblEx3 : medianOutlierRows tblEx3 ["A"] = [rowA3, rowB3] := by
  norm_num [medianOutlierRows, tblEx3, ranksInTable, sortList, insertSorted,
    entriesAt, medianRelDist, npMedian, closestRankTo, classifyDelta,
    abs_of_nonneg, abs_of_nonpos, rowA3, rowB3]

lemma rowB3_mem : rowB3 ∈ medianOutlierRows tblEx3 ["A"] := by
  rw [medianOutlierRows_tblEx3]
  simp

/-- One-phylum, one-rank, one-taxon rooting set used for concrete rows of the
consensus report. -/
def prdTiny : List (String × RelTable) := [("P1", [(0, [("A", 1)])])]

/-- The single consensus row produced from prdTiny. -/
def rowTiny : SummaryRow := ⟨0, "A", 1, 0, 1, 0, 0, some 0, "OK", 0, 0, [0]⟩

lemma medianSummaryRows_prdTiny : medianSummaryRows prdTiny ["A"] = [rowTiny] := by
  have h1 : ranksInSummary prdTiny = [0] := by
    simp [ranksInSummary, prdTiny, sortList, insertSorted]
  have h2 : taxaAtRank prdTiny 0 = ["A"] := by
    simp [taxaAtRank, prdTiny]
  have h3 : rankMediansAcrossPhyla prdTiny ["A"] 0 = [1] := by
    simp [rankMediansAcrossPhyla, prdTiny, npMedian_singleton]
  have h4 : aggMedian prdTiny ["A"] 0 = 1 := by
    rw [aggMedian, h3, npMedian_singleton]
  have h5 : aggMad prdTiny ["A"] 0 = 0 := by
    rw [aggMad, h3, h4]
    norm_num [npMedian_singleton]
  have h6 : collectedDists prdTiny 0 "A" = [1] := by
    simp [collectedDists, prdTiny, phDists]
  have h7 : taxonMedian prdTiny 0 "A" = 1 := by
    rw [taxonMedian, h6, npMedian_singleton]
  have h8 : taxonMad prdTiny 0 "A" = 0 := by
    rw [taxonMad, h6, h7]
    norm_num [npMedian_singleton]
  have h9 : distToPhylumMedian prdTiny ["A"] 0 "A" = [0] := by
    simp [distToPhylumMedian, prdTiny, npMedian_singleton]
  have hlist : ((prdTiny.flatMap (fun ph => ph.2.map Prod.fst)).dedup) = [0] := by
    simp [prdTiny]
  have h10 : closestRankSummary prdTiny ["A"] 1 = some 0 := by
    rw [closestRankSummary, hlist]
    simp only [List.foldl_cons, List.foldl_nil]
    rw [h4]
    norm_num
  rw [medianSummaryRows, h1]
  simp only [List.flatMap_cons, List.flatMap_nil, List.append_nil, h2, List.map_cons,
    List.map_nil, h4, h5, h6, h7, h8, h9, h10]
  norm_num [classifyDelta, npMean_singleton, abs_of_nonneg, rowTiny]

lemma rowTiny_mem : rowTiny ∈ medianSummaryRows prdTiny ["A"] := by
  rw [medianSummaryRows_prdTiny]
  simp

/-- C2: in both outlier reports the classification column is the fixed,
order-sensitive chain of cutoffs applied to delta, where delta is the taxon
distance minus the rank median in the per-rooting report and the taxon median
minus the aggregate rank median in the consensus report. -/
theorem claim_C2_fixed_delta_cutoffs :
    (∀ (tbl : RelTable) (inference : List String) (row : OutlierRow),
      row ∈ medianOutlierRows tbl inference →
      row.delta = row.dist - medianRelDist tbl inference row.rank ∧
      row.classification = classifyDelta row.delta ∧
      deltaClassSpec row.delta row.classification) ∧
    (∀ (prd : List (String × RelTable)) (inference : List String) (row : SummaryRow),
      row ∈ medianSummaryRows prd inference →
      row.delta = row.taxonMedianVal - aggMedian prd inference row.rank ∧
      row.classification = classifyDelta row.delta ∧
      deltaClassSpec row.delta row.classification) := by
  constructor
  · intro tbl inference row hrow
    rw [medianOutlierRows] at hrow
    obtain ⟨rank, hrank, hmem⟩ := List.mem_flatMap.mp hrow
    obtain ⟨td, htd, heq⟩ := List.mem_map.mp hmem
    subst heq
    exact ⟨rfl, rfl, classifyDelta_spec _⟩
  · intro prd inference row hrow
    rw [medianSummaryRows] at hrow
    obtain ⟨rank, hrank, hmem⟩ := List.mem_flatMap.mp hrow
    obtain ⟨taxon, htx, heq⟩ := List.mem_map.mp hmem
    subst heq
    exact ⟨rfl, rfl, classifyDelta_spec _⟩

/-- Witness for C2: a concrete row of each report. -/
theorem claim_C2_witness :
    (rowB3.delta = rowB3.dist - medianRelDist tblEx3 ["A"] rowB3.rank ∧
     rowB3.classification = classifyDelta rowB3.delta ∧
     deltaClassSpec rowB3.delta rowB3.classification) ∧
    (rowTiny.delta = rowTiny.taxonMedianVal - aggMedian prdTiny ["A"] rowTiny.rank ∧
     rowTiny.classification = classifyDelta rowTiny.delta ∧
     deltaClassSpec rowTiny.delta rowTiny.classification) :=
  ⟨claim_C2_fixed_delta_cutoffs.1 tblEx3 ["A"] rowB3 rowB3_mem,
   claim_C2_fixed_delta_cutoffs.2 prdTiny ["A"] rowTiny rowTiny_mem⟩

/-- C3 counterexample: taxon B of tblEx3 has delta exactly -0.2 and its
classification is not the claimed very overclassified. -/
theorem claim_C3_counterexample :
    rowB3 ∈ medianOutlierRows tblEx3 ["A"] ∧ rowB3.delta = -(2/10) ∧
    rowB3.classification ≠ "very overclassified" := by
  refine ⟨rowB3_mem, by norm_num [rowB3], ?_⟩
  rw [show rowB3.classification = "overclassified" from rfl]
  decide

/-- C3 amended: a taxon whose delta is exactly -0.2 is classified
overclassified, because the strict test delta < -0.2 fails at equality and
the next test delta < -0.1 succeeds. -/
theorem claim_C3_boundary_amended (tbl : RelTable) (inference : List String)
    (row : OutlierRow) (hrow : row ∈ medianOutlierRows tbl inference)
    (hdelta : row.delta = -(2/10)) : row.classification = "overclassified" := by
  rw [medianOutlierRows] at hrow
  obtain ⟨rank, hrank, hmem⟩ := List.mem_flatMap.mp hrow
  obtain ⟨td, htd, heq⟩ := List.mem_map.mp hmem
  subst heq
  show classifyDelta (td.2 - medianRelDist tbl inference rank) = "overclassified"
  rw [show td.2 - medianRelDist tbl inference rank = -(2/10) from hdelta]
  norm_num [classifyDelta]

/-- Witness for C3 amended at the concrete table tblEx3. -/
theorem claim_C3_witness :
    rowB3 ∈ medianOutlierRows tblEx3 ["A"] ∧ rowB3.delta = -(2/10) ∧
    rowB3.classification = "overclassified" :=
  ⟨rowB3_mem, by norm_num [rowB3],
   claim_C3_boundary_amended tblEx3 ["A"] rowB3 rowB3_mem (by norm_num [rowB3])⟩

lemma medianRelDistQ_tblEx3_A : medianRelDistQ tblEx3 ["A"] 0 = some (7/10) := by
  have hv : ((entriesAt tblEx3 0).filter (fun td => decide (td.1 ∈ ["A"]))).map Prod.snd
      = [7/10] := by
    simp [entriesAt, tblEx3]
  rw [medianRelDistQ]
  simp only [hv]
  norm_num [npMedian_singleton]

lemma medianRelDistQ_tblEx3_B : medianRelDistQ tblEx3 ["B"] 0 = some (1/2) := by
  have hv : ((entriesAt tblEx3 0).filter (fun td => decide (td.1 ∈ ["B"]))).map Prod.snd
      = [1/2] := by
    simp [entriesAt, tblEx3]
  rw [medianRelDistQ]
  simp only [hv]
  norm_num [npMedian_singleton]

lemma medianRelDistQ_tblEx3_empty : medianRelDistQ tblEx3 [] 0 = none := by
  simp [medianRelDistQ, tblEx3, entriesAt]

lemma dedup_tblEx3 : (tblEx3.map Prod.fst).dedup = [0] := by
  simp [tblEx3]

lemma closestSearch_A1 : closestSearch tblEx3 ["A"] (7/10) none = some 0 := by
  rw [closestSearch, dedup_tblEx3]
  simp only [List.foldl_cons, List.foldl_nil, medianRelDistQ_tblEx3_A]
  norm_num [abs_of_nonneg, abs_of_nonpos]

lemma closestSearch_A2 : closestSearch tblEx3 ["A"] (1/2) (some 0) = some 0 := by
  rw [closestSearch, dedup_tblEx3]
  simp only [List.foldl_cons, List.foldl_nil, medianRelDistQ_tblEx3_A]
  norm_num [abs_of_nonneg, abs_of_nonpos]

lemma closestSearch_B1 : closestSearch tblEx3 ["B"] (7/10) none = some 0 := by
  rw [closestSearch, dedup_tblEx3]
  simp only [List.foldl_cons, List.foldl_nil, medianRelDistQ_tblEx3_B]
  norm_num [abs_of_nonneg, abs_of_nonpos]

lemma closestSearch_B2 : closestSearch tblEx3 ["B"] (1/2) (some 0) = some 0 := by
  rw [closestSearch, dedup_tblEx3]
  simp only [List.foldl_cons, List.foldl_nil, medianRelDistQ_tblEx3_B]
  norm_num [abs_of_nonneg, abs_of_nonpos]

lemma closestSearch_empty : closestSearch tblEx3 [] (7/10) none = none := by
  rw [closestSearch, dedup_tblEx3]
  simp only [List.foldl_cons, List.foldl_nil, medianRelDistQ_tblEx3_empty]

lemma rowStream_tblEx3 : rowStream tblEx3 = [(0, "A", 7/10), (0, "B", 1/2)] := by
  simp [rowStream, tblEx3, ranksInTable, sortList, insertSorted, entriesAt]

/-- Rows written for tblEx3 with inference set A. -/
def rowAN : OutlierRowN := ⟨0, "A", 7/10, some (7/10), some 0, 0, "OK"⟩

def rowBN : OutlierRowN := ⟨0, "B", 1/2, some (7/10), some (-(1/5)), 0, "overclassified"⟩

/-- Rows written for tblEx3 with inference set B. -/
def rowAN2 : OutlierRowN := ⟨0, "A", 7/10, some (1/2), some (1/5), 0, "underclassified"⟩

def rowBN2 : OutlierRowN := ⟨0, "B", 1/2, some (1/2), some 0, 0, "OK"⟩

lemma report_tblEx3_A : medianOutlierReport tblEx3 ["A"] = Except.ok [rowAN, rowBN] := by
  rw [medianOutlierReport, rowStream_tblEx3]
  norm_num [reportLoop, closestSearch_A1, closestSearch_A2, medianRelDistQ_tblEx3_A,
    classifyDeltaN, classifyDelta, rowAN, rowBN]

lemma report_tblEx3_B : medianOutlierReport tblEx3 ["B"] = Except.ok [rowAN2, rowBN2] := by
  rw [medianOutlierReport, rowStream_tblEx3]
  norm_num [reportLoop, closestSearch_B1, closestSearch_B2, medianRelDistQ_tblEx3_B,
    classifyDeltaN, classifyDelta, rowAN2, rowBN2]

lemma report_tblEx3_empty :
    medianOutlierReport tblEx3 [] =
      Except.error "NameError: name closest_rank is not defined" := by
  rw [medianOutlierReport, rowStream_tblEx3]
  norm_num [reportLoop, closestSearch_empty]

/-- C5 counterexample: on the same table, the run with inference set A
writes both taxon rows, while the run with an inference set disjoint from
the table leaves every rank median NaN, never binds closest_rank, and
aborts with NameError before writing any row, so taxon B receives no
classification there. -/
theorem claim_C5_counterexample :
    medianOutlierReport tblEx3 ["A"] = Except.ok [rowAN, rowBN] ∧
    medianOutlierReport tblEx3 [] =
      Except.error "NameError: name closest_rank is not defined" ∧
    ¬ ∃ rows : List OutlierRowN, medianOutlierReport tblEx3 [] = Except.ok rows ∧
        ∃ row ∈ rows, row.taxon = "B" := by
  refine ⟨report_tblEx3_A, report_tblEx3_empty, ?_⟩
  rintro ⟨rows, hok, -⟩
  rw [report_tblEx3_empty] at hok
  exact absurd hok (by simp)

/-- C5 amended: for two runs on the same table that differ only in the
inference set and that both complete without the NameError of the
all-NaN-median path, the (rank, taxon, distance) rows written are identical
and every taxon of the table receives a row; only the reference statistics
and the values derived from them can vary. -/
theorem claim_C5_rows_amended (tbl : RelTable) (inf1 inf2 : List String)
    (rows1 rows2 : List OutlierRowN)
    (h1 : medianOutlierReport tbl inf1 = Except.ok rows1)
    (h2 : medianOutlierReport tbl inf2 = Except.ok rows2) :
    (rows1.map (fun r => (r.rank, r.taxon, r.dist)) =
     rows2.map (fun r => (r.rank, r.taxon, r.dist))) ∧
    (∀ rt ∈ tbl, ∀ td ∈ rt.2, ∃ row ∈ rows1,
      row.rank = rt.1 ∧ row.taxon = td.1 ∧ row.dist = td.2) := by
  rw [medianOutlierReport] at h1 h2
  have p1 := reportLoop_proj tbl inf1 (rowStream tbl) [] none rows1 h1
  have p2 := reportLoop_proj tbl inf2 (rowStream tbl) [] none rows2 h2
  rw [List.map_nil, List.nil_append] at p1 p2
  refine ⟨p1.trans p2.symm, ?_⟩
  intro rt hrt td htd
  have hmem : (rt.1, td.1, td.2) ∈ rowStream tbl := mem_rowStream tbl rt hrt td htd
  rw [← p1] at hmem
  obtain ⟨row, hrow, heq⟩ := List.mem_map.mp hmem
  simp only [Prod.mk.injEq] at heq
  exact ⟨row, hrow, heq.1, heq.2.1, heq.2.2⟩

/-- Witness for C5 amended: the two successful runs on tblEx3. -/
theorem claim_C5_witness :
    (([rowAN, rowBN].map (fun r : OutlierRowN => (r.rank, r.taxon, r.dist))) =
     ([rowAN2, rowBN2].map (fun r : OutlierRowN => (r.rank, r.taxon, r.dist)))) ∧
    (∃ row ∈ [rowAN, rowBN], row.rank = 0 ∧ row.taxon = "B" ∧ row.dist = 1/2) := by
  have h := claim_C5_rows_amended tblEx3 ["A"] ["B"] [rowAN, rowBN] [rowAN2, rowBN2]
    report_tblEx3_A report_tblEx3_B
  exact ⟨h.1, h.2 (0, [("A", 7/10), ("B", 1/2)]) (by simp [tblEx3]) ("B", 1/2) (by simp)⟩

/-- C6: evaluating the tally step at a node with a real (non basal)
prediction but no taxon name shows the code attempting self-comparison on a
missing lineage: it raises AttributeError instead of skipping the tally as
the specification requires. -/
theorem claim_C6_unconditional_tally :
    tallyStep none "P__" (fun _ => 0) (fun _ => 0) =
      Except.error "AttributeError: NoneType object has no attribute split" := by
  rfl

/-- C7: a taxon whose divergence is defined in exactly one rooting has a
one-element per-rooting list, its taxon median is that single value, and its
median absolute deviation is zero. -/
theorem claim_C7_single_rooting_degenerate (prd : List (String × RelTable))
    (rank : Nat) (taxon : String) (v : ℚ)
    (h : (prd.filter (fun ph => !(phDists rank taxon ph.2).isEmpty)).map
      (fun ph => phDists rank taxon ph.2) = [[v]]) :
    collectedDists prd rank taxon = [v] ∧
    taxonMedian prd rank taxon = v ∧ taxonMad prd rank taxon = 0 := by
  have hc : collectedDists prd rank taxon = [v] := by
    rw [collectedDists]
    exact flatMap_singleton_of_filter (fun ph => phDists rank taxon ph.2) prd v h
  have hm : taxonMedian prd rank taxon = v := by
    rw [taxonMedian, hc, npMedian_singleton]
  refine ⟨hc, hm, ?_⟩
  rw [taxonMad, hc, hm]
  simp [npMedian_singleton]

/-- Two-rooting set in which taxon g__Foo appears only under the first
rooting. -/
def prdEx : List (String × RelTable) :=
  [("Firmicutes", [(5, [("g__Foo", 3/10), ("g__Bar", 2/5)])]),
   ("Proteobacteria", [(5, [("g__Bar", 1/2)])])]

/-- Witness for C7: g__Foo is present in exactly one of the two rootings of
prdEx. -/
theorem claim_C7_witness :
    collectedDists prdEx 5 "g__Foo" = [3/10] ∧
    taxonMedian prdEx 5 "g__Foo" = 3/10 ∧ taxonMad prdEx 5 "g__Foo" = 0 :=
  claim_C7_single_rooting_degenerate prdEx 5 "g__Foo" (3/10) (by simp [prdEx, phDists])

/-- C8: the rooting loop processes exactly the first two discovered phyla, in
discovery order, however many phyla the traversal finds. -/
theorem claim_C8_first_two_rootings (ns : List PNode) :
    (processedPhyla ns).length = min 2 (discoverPhyla ns).length ∧
    processedPhyla ns ++ (discoverPhyla ns).drop 2 = discoverPhyla ns := by
  constructor
  · rw [processedPhyla, List.length_take]
  · rw [processedPhyla]
    exact List.take_append_drop 2 (discoverPhyla ns)

/-- C9: evaluating the accuracy summary with zero tallied nodes at every rank
shows the percentage division hitting a zero denominator for each reported
rank; the none entries model the unguarded ZeroDivisionError the source
raises, not a guarded diagnostic. -/
theorem claim_C9_percentage_division_by_zero :
    accuracySummary (fun _ => 0) (fun _ => 0) =
      [("P__", 0, 0, none), ("C__", 0, 0, none), ("O__", 0, 0, none),
       ("F__", 0, 0, none), ("G__", 0, 0, none), ("S__", 0, 0, none)] := by
  rfl

/-- C10: a parsed support value of exactly zero is falsy, so the
minimum-support skip never fires for it and the node is treated exactly as a
node with no support value; in general the skip fires precisely for a
present, nonzero support below the minimum. -/
theorem claim_C10_zero_support_not_skipped :
    (∀ (n : PNode) (minSupport : ℚ) (onlyNamed : Bool) (minLength : ℚ),
      n.support = some 0 →
      skipBySupport n.support minSupport = false ∧
      nodeEligible n minSupport onlyNamed minLength =
        nodeEligible { n with support := none } minSupport onlyNamed minLength) ∧
    (∀ (s : Option ℚ) (m : ℚ),
      skipBySupport s m = true ↔ ∃ v, s = some v ∧ v ≠ 0 ∧ v < m) := by
  constructor
  · intro n minSupport onlyNamed minLength h
    have hskip : skipBySupport n.support minSupport = false := by
      rw [h]
      simp [skipBySupport]
    refine ⟨hskip, ?_⟩
    rw [nodeEligible, nodeEligible, hskip]
    simp [skipBySupport]
  · intro s m
    cases s with
    | none => simp [skipBySupport]
    | some v =>
      by_cases hv : v = 0
      · subst hv
        simp [skipBySupport]
      · simp [skipBySupport, hv]

/-- Witness for C10 at a concrete node with support exactly 0 and a positive
minimum support. -/
def nodeZero : PNode := ⟨false, 1, some "label", some 0, some "d__Bacteria"⟩

theorem claim_C10_witness :
    skipBySupport nodeZero.support 50 = false ∧
    nodeEligible nodeZero 50 false 0 =
      nodeEligible { nodeZero with support := none } 50 false 0 :=
  claim_C10_zero_support_not_skipped.1 nodeZero 50 false 0 rfl

end PhyloRank
